import Mathlib

/-!
Shallow embedding of the request-dispatch layer of `src/server/server.js`:
the `POST /api/chat` handler, which validates the incoming body, routes to
either the local Ollama backend or the Google Gemini cloud backend, and
normalizes successes and failures into the HTTP responses it sends back.

The two outbound `fetch` calls are abstracted as environments: functions
from the request the handler actually sends (URL and JSON payload) to the
outcome the handler observes (a parsed response, a connection-refused
error, or some other thrown error).
-/

/-- JS truthiness test used by the handler on the string fields of the
request body (`!prompt`, `!apiKey`): an absent field or the empty string is
falsy; every other string, including whitespace-only ones, is truthy. -/
def falsyStr : Option String → Bool
  | none => true
  | some s => s = ""

/-- The JSON body of a `POST /api/chat` request:
`{ prompt, useLocal, apiKey }` (server.js line 21). -/
structure ChatRequest where
  prompt : Option String
  useLocal : Bool
  apiKey : Option String
deriving DecidableEq, Repr

/-- Outcome of an outbound `fetch`, as observed by the handler: a response
with its `ok` flag, `statusText` and parsed JSON body; an error carrying
code ECONNREFUSED; or any other thrown error. -/
inductive FetchOutcome (β : Type) where
  | response (ok : Bool) (statusText : String) (body : β)
  | connRefused (msg : String)
  | otherError (msg : String)
deriving DecidableEq

/-- Parsed JSON body of an Ollama response: the handler only reads its
optional `response` field (server.js line 55). -/
abbrev OllamaBody := Option String

/-- The JSON body sent to the local backend (server.js lines 37-41). -/
structure OllamaPayload where
  model : String
  prompt : Option String
  stream : Bool
deriving DecidableEq, Repr

/-- Construction of `ollamaPayload` from the request's prompt
(server.js lines 37-41). -/
def ollamaPayload (prompt : Option String) : OllamaPayload :=
  { model := "gemma3:12b-it-qat", prompt := prompt, stream := false }

/-- The fixed local endpoint (server.js line 33). -/
def ollamaUrl : String := "http://localhost:11434/api/generate"

/-- One part of a Gemini content object, with its optional `text` field. -/
structure GeminiPart where
  text : Option String
deriving DecidableEq, Repr

/-- A Gemini content object, with its optional `parts` array. -/
structure GeminiContent where
  parts : Option (List GeminiPart)
deriving DecidableEq, Repr

/-- A Gemini candidate, with its optional `content` object. -/
structure GeminiCandidate where
  content : Option GeminiContent
deriving DecidableEq, Repr

/-- The structured `error` object of a Gemini error body, with its optional
`message` field. -/
structure GeminiError where
  message : Option String
deriving DecidableEq, Repr

/-- Parsed JSON body of a Gemini response: the handler reads
`error.message` on a non-ok status (line 87) and the
`candidates[0].content.parts[0].text` chain on an ok status (lines 91-95). -/
structure GeminiBody where
  error : Option GeminiError
  candidates : Option (List GeminiCandidate)
deriving DecidableEq, Repr

/-- The optional chain `errorData.error?.message` (server.js line 87). -/
def geminiErrMsg (b : GeminiBody) : Option String :=
  match b.error with
  | none => none
  | some e => e.message

/-- The optional chain `geminiResult.candidates?.[0]?.content?.parts?.[0]?.text`
(server.js line 91): any absent link yields undefined, modelled as `none`. -/
def geminiText (b : GeminiBody) : Option String :=
  match b.candidates with
  | none => none
  | some cs =>
    match cs.head? with
    | none => none
    | some c =>
      match c.content with
      | none => none
      | some ct =>
        match ct.parts with
        | none => none
        | some ps =>
          match ps.head? with
          | none => none
          | some p => p.text

/-- One conversational turn of the Gemini payload. -/
structure ChatTurn where
  role : String
  parts : List GeminiPart
deriving DecidableEq, Repr

/-- The JSON body sent to the cloud backend:
`{ contents: [{ role: "user", parts: [{ text: prompt }] }] }`
(server.js lines 74-75). -/
structure GeminiPayload where
  contents : List ChatTurn
deriving DecidableEq, Repr

/-- Construction of `geminiPayload` from the request's prompt
(server.js lines 74-75). -/
def geminiPayload (prompt : Option String) : GeminiPayload :=
  { contents := [{ role := "user", parts := [{ text := prompt }] }] }

/-- The cloud endpoint URL with the caller's credential appended as a query
parameter (server.js line 76). -/
def geminiApiUrl (apiKey : String) : String :=
  "https://generativelanguage.googleapis.com/v1beta/models/gemini-2.0-flash:generateContent?key="
    ++ apiKey

/-- The local (Ollama) branch of the try block (server.js lines 30-66):
given the observed fetch outcome, either the value bound to
`llmResponseText` (the body's optional `response` field, taken verbatim) or
the message of the error the branch throws. A fetch error with code
ECONNREFUSED is replaced by the fixed could-not-connect message; any other
thrown error is re-thrown unchanged; a non-ok status throws a message built
from the response's statusText. -/
def generateLocal (out : FetchOutcome OllamaBody) : Except String (Option String) :=
  match out with
  | .connRefused _ =>
    .error "Could not connect to the local Ollama server. Please ensure it is running on http://localhost:11434."
  | .otherError m => .error m
  | .response ok statusText body =>
    if ok then .ok body
    else .error ("Ollama server returned an error: " ++ statusText)

/-- The cloud (Gemini) branch of the try block after the API-key check
(server.js lines 78-96): given the observed fetch outcome, either the value
bound to `llmResponseText` or the message of the error the branch throws.
On a non-ok status it throws `errorData.error?.message` when that is truthy
and a generic message otherwise; on an ok status it requires the nested
text to be present and truthy, else throws the no-content message. Thrown
fetch errors propagate unchanged (this branch has no inner catch). -/
def generateCloud (out : FetchOutcome GeminiBody) : Except String String :=
  match out with
  | .connRefused m => .error m
  | .otherError m => .error m
  | .response ok _statusText body =>
    if ok then
      match geminiText body with
      | some t => if t = "" then .error "No content found in Gemini API response." else .ok t
      | none => .error "No content found in Gemini API response."
    else
      .error
        (match geminiErrMsg body with
         | some m => if m = "" then "Gemini API request failed" else m
         | none => "Gemini API request failed")

/-- The HTTP response the handler sends back: HTTP 200 with body
`{ response }` (line 98; the field is absent when `llmResponseText` is
undefined), HTTP 400 with body `{ message }` (lines 24, 71), or HTTP 500
with body `{ message }` from the catch block (line 103). -/
inductive DispatchResult where
  | ok (response : Option String)
  | clientError (message : String)
  | serverError (message : String)
deriving DecidableEq, Repr

/-- Whether a dispatch result is an HTTP 400 client error. -/
def DispatchResult.isClientError : DispatchResult → Bool
  | .clientError _ => true
  | _ => false

/-- The `POST /api/chat` handler (server.js lines 17-105). `localEnv` and
`cloudEnv` abstract the two outbound fetches: each maps the request the
handler actually sends (for the local backend, the JSON payload; for the
cloud backend, the URL carrying the credential and the JSON payload) to the
outcome the handler observes. Validation: a falsy prompt returns 400
"Prompt is required." before anything else; in the cloud branch a falsy
apiKey returns 400 "API Key is required for Cloud model.". Any error thrown
by a branch is caught at lines 100-104 and returned as HTTP 500 with
"Internal server error: " prepended to its message. -/
def dispatch (req : ChatRequest)
    (localEnv : OllamaPayload → FetchOutcome OllamaBody)
    (cloudEnv : String → GeminiPayload → FetchOutcome GeminiBody) : DispatchResult :=
  if falsyStr req.prompt then .clientError "Prompt is required."
  else if req.useLocal then
    match generateLocal (localEnv (ollamaPayload req.prompt)) with
    | .ok t => .ok t
    | .error m => .serverError ("Internal server error: " ++ m)
  else if falsyStr req.apiKey then .clientError "API Key is required for Cloud model."
  else
    match generateCloud (cloudEnv (geminiApiUrl (req.apiKey.getD "")) (geminiPayload req.prompt)) with
    | .ok t => .ok (some t)
    | .error m => .serverError ("Internal server error: " ++ m)

/-! Concrete fixtures used by counterexamples and witnesses. -/

/-- A local environment whose service answers HTTP 200 with body
`{ response: "X" }`. -/
def envLocalOkX : OllamaPayload → FetchOutcome OllamaBody :=
  fun _ => .response true "OK" (some "X")

/-- A local environment whose service refuses the connection. -/
def envLocalRefused : OllamaPayload → FetchOutcome OllamaBody :=
  fun _ => .connRefused "connect ECONNREFUSED 127.0.0.1:11434"

/-- A local environment whose service answers HTTP 200 with a JSON body
lacking the `response` field. -/
def envLocalNoField : OllamaPayload → FetchOutcome OllamaBody :=
  fun _ => .response true "OK" none

/-- A cloud environment whose service answers HTTP 403 with body
`{ error: { message: "bad key" } }`. -/
def envCloud403 : String → GeminiPayload → FetchOutcome GeminiBody :=
  fun _ _ => .response false "Forbidden" { error := some { message := some "bad key" }, candidates := none }

/-- A cloud environment whose service answers HTTP 200 with an empty
`candidates` array. -/
def envCloudEmptyCand : String → GeminiPayload → FetchOutcome GeminiBody :=
  fun _ _ => .response true "OK" { error := none, candidates := some [] }

/-- A cloud environment that is never reached in the scenario using it. -/
def envCloudUnused : String → GeminiPayload → FetchOutcome GeminiBody :=
  fun _ _ => .otherError "unreached"

/-- A local environment that is never reached in the scenario using it. -/
def envLocalUnused : OllamaPayload → FetchOutcome OllamaBody :=
  fun _ => .otherError "unreached"

/-- A request whose prompt is a single space, routed to the local backend. -/
def reqWs : ChatRequest := { prompt := some " ", useLocal := true, apiKey := none }

/-- A request with a non-empty prompt, routed to the local backend. -/
def reqLocalHi : ChatRequest := { prompt := some "hi", useLocal := true, apiKey := none }

/-- A request with a non-empty prompt and credential, routed to the cloud
backend. -/
def reqCloudHi : ChatRequest := { prompt := some "hi", useLocal := false, apiKey := some "k" }

/-- A request with a non-empty prompt but no credential, routed to the
cloud backend. -/
def reqCloudNoKey : ChatRequest := { prompt := some "hi", useLocal := false, apiKey := none }

/-! Claims -/

/-- C1 counterexample: a prompt consisting of a single whitespace character
is truthy in JS, so the handler does not reject it; with the local backend
answering successfully, dispatch returns HTTP 200, not a ClientError. The
claim that every whitespace-only prompt yields a ClientError is false. -/
theorem C1_counterexample :
    reqWs.prompt = some " " ∧ Char.isWhitespace ' ' = true ∧
    dispatch reqWs envLocalOkX envCloudUnused = .ok (some "X") ∧
    (dispatch reqWs envLocalOkX envCloudUnused).isClientError = false := by
  refine ⟨rfl, by decide, rfl, rfl⟩

/-- C1 (amended): for every request whose prompt is absent or the empty
string, dispatch returns ClientError 400 with message "Prompt is
required.", regardless of backend selection and of any credential
(whitespace-only prompts are not rejected). -/
theorem C1_empty_prompt_clientError (req : ChatRequest)
    (lenv : OllamaPayload → FetchOutcome OllamaBody)
    (cenv : String → GeminiPayload → FetchOutcome GeminiBody)
    (hp : falsyStr req.prompt = true) :
    dispatch req lenv cenv = .clientError "Prompt is required." := by
  simp [dispatch, hp]

/-- C1 witness: the amended theorem applied to a request with an absent
prompt routed to the cloud backend with no credential. -/
theorem C1_witness :
    dispatch { prompt := none, useLocal := false, apiKey := none } envLocalOkX envCloudUnused
      = .clientError "Prompt is required." :=
  C1_empty_prompt_clientError _ envLocalOkX envCloudUnused (by decide)

/-- C2 counterexample: a connection-refused failure is classified by the
local branch as the fixed could-not-connect message, yet the dispatcher
still prepends "Internal server error: " to it; the claim that classified
failures pass through unchanged is false. -/
theorem C2_counterexample :
    generateLocal (envLocalRefused (ollamaPayload reqLocalHi.prompt))
      = .error "Could not connect to the local Ollama server. Please ensure it is running on http://localhost:11434." ∧
    dispatch reqLocalHi envLocalRefused envCloudUnused
      = .serverError ("Internal server error: " ++ "Could not connect to the local Ollama server. Please ensure it is running on http://localhost:11434.") ∧
    dispatch reqLocalHi envLocalRefused envCloudUnused
      ≠ .serverError "Could not connect to the local Ollama server. Please ensure it is running on http://localhost:11434." := by
  refine ⟨rfl, rfl, by decide⟩

/-- C2 (amended): every failure thrown by either branch — including those
the branch itself classified (connection refused, non-success status,
missing expected field) — is returned as an HTTP 500 ServerError whose
message is "Internal server error: " followed by the underlying message;
only the validation ClientErrors are returned without wrapping. -/
theorem C2_wraps_all_failures (req : ChatRequest)
    (lenv : OllamaPayload → FetchOutcome OllamaBody)
    (cenv : String → GeminiPayload → FetchOutcome GeminiBody)
    (m : String)
    (hp : falsyStr req.prompt = false)
    (h : (req.useLocal = true ∧ generateLocal (lenv (ollamaPayload req.prompt)) = .error m)
       ∨ (req.useLocal = false ∧ falsyStr req.apiKey = false ∧
          generateCloud (cenv (geminiApiUrl (req.apiKey.getD "")) (geminiPayload req.prompt))
            = .error m)) :
    dispatch req lenv cenv = .serverError ("Internal server error: " ++ m) := by
  rcases h with ⟨hl, he⟩ | ⟨hl, hk, he⟩
  · simp [dispatch, hp, hl, he]
  · simp [dispatch, hp, hl, hk, he]

/-- C2 witness: the amended theorem applied to the connection-refused local
scenario. -/
theorem C2_witness :
    dispatch reqLocalHi envLocalRefused envCloudUnused
      = .serverError ("Internal server error: " ++ "Could not connect to the local Ollama server. Please ensure it is running on http://localhost:11434.") :=
  C2_wraps_all_failures reqLocalHi envLocalRefused envCloudUnused _ (by decide)
    (Or.inl ⟨rfl, rfl⟩)

/-- C3 counterexample: on cloud HTTP 403 with body
`{ error: { message: "bad key" } }`, the message dispatch returns is
"Internal server error: bad key", not "bad key"; the claim's stated message
is false. -/
theorem C3_counterexample :
    dispatch reqCloudHi envLocalUnused envCloud403
      = .serverError "Internal server error: bad key" ∧
    dispatch reqCloudHi envLocalUnused envCloud403 ≠ .serverError "bad key" := by
  refine ⟨rfl, by decide⟩

/-- C3 (amended): on a non-success cloud HTTP status the underlying failure
message is the service's structured error field when present and non-empty,
else "Gemini API request failed", and dispatch returns it as an HTTP 500
failure with "Internal server error: " prepended — so for HTTP 403 with
body error.message = "bad key" the returned message is
"Internal server error: bad key". -/
theorem C3_cloud_error_status (req : ChatRequest)
    (lenv : OllamaPayload → FetchOutcome OllamaBody)
    (cenv : String → GeminiPayload → FetchOutcome GeminiBody)
    (st : String) (body : GeminiBody)
    (hp : falsyStr req.prompt = false) (hl : req.useLocal = false)
    (hk : falsyStr req.apiKey = false)
    (he : cenv (geminiApiUrl (req.apiKey.getD "")) (geminiPayload req.prompt)
      = .response false st body) :
    dispatch req lenv cenv = .serverError ("Internal server error: " ++
      (match geminiErrMsg body with
       | some m => if m = "" then "Gemini API request failed" else m
       | none => "Gemini API request failed")) := by
  simp [dispatch, hp, hl, hk, he, generateCloud]

/-- C3 witness: the amended theorem applied to the HTTP 403 "bad key"
scenario. -/
theorem C3_witness :
    dispatch reqCloudHi envLocalUnused envCloud403
      = .serverError ("Internal server error: " ++ "bad key") :=
  C3_cloud_error_status reqCloudHi envLocalUnused envCloud403 "Forbidden"
    { error := some { message := some "bad key" }, candidates := none }
    (by decide) rfl (by decide) rfl

/-- C4 counterexample: on cloud HTTP 200 with an empty candidates array,
the message dispatch returns is "Internal server error: No content found in
Gemini API response.", not "No content found in Gemini API response."; the
claim's stated message is false. -/
theorem C4_counterexample :
    dispatch reqCloudHi envLocalUnused envCloudEmptyCand
      = .serverError "Internal server error: No content found in Gemini API response." ∧
    dispatch reqCloudHi envLocalUnused envCloudEmptyCand
      ≠ .serverError "No content found in Gemini API response." := by
  refine ⟨rfl, by decide⟩

/-- C4 (amended): on a success cloud HTTP status whose body lacks the
nested `candidates[0].content.parts[0].text` field, dispatch returns an
HTTP 500 failure whose message is the adapter-level message "No content
found in Gemini API response." with "Internal server error: " prepended. -/
theorem C4_no_content (req : ChatRequest)
    (lenv : OllamaPayload → FetchOutcome OllamaBody)
    (cenv : String → GeminiPayload → FetchOutcome GeminiBody)
    (st : String) (body : GeminiBody)
    (hp : falsyStr req.prompt = false) (hl : req.useLocal = false)
    (hk : falsyStr req.apiKey = false)
    (he : cenv (geminiApiUrl (req.apiKey.getD "")) (geminiPayload req.prompt)
      = .response true st body)
    (ht : geminiText body = none) :
    dispatch req lenv cenv
      = .serverError "Internal server error: No content found in Gemini API response." := by
  simp [dispatch, hp, hl, hk, he, generateCloud, ht]

/-- C4 witness: the amended theorem applied to the empty-candidates
scenario. -/
theorem C4_witness :
    dispatch reqCloudHi envLocalUnused envCloudEmptyCand
      = .serverError "Internal server error: No content found in Gemini API response." :=
  C4_no_content reqCloudHi envLocalUnused envCloudEmptyCand "OK"
    { error := none, candidates := some [] }
    (by decide) rfl (by decide) rfl rfl

/-- C5: when the local service answers HTTP 200 with body
`{ response: t }`, dispatch returns HTTP 200 with response text exactly
`t`, verbatim, with no post-processing or truncation. -/
theorem C5_local_success (req : ChatRequest)
    (lenv : OllamaPayload → FetchOutcome OllamaBody)
    (cenv : String → GeminiPayload → FetchOutcome GeminiBody)
    (st t : String)
    (hp : falsyStr req.prompt = false) (hl : req.useLocal = true)
    (he : lenv (ollamaPayload req.prompt) = .response true st (some t)) :
    dispatch req lenv cenv = .ok (some t) := by
  simp [dispatch, hp, hl, he, generateLocal]

/-- C5 witness: the theorem applied to a local service answering with
`{ response: "X" }`. -/
theorem C5_witness :
    dispatch reqLocalHi envLocalOkX envCloudUnused = .ok (some "X") :=
  C5_local_success reqLocalHi envLocalOkX envCloudUnused "OK" "X" (by decide) rfl rfl

/-- C6 counterexample: when the local connection is refused, the message
dispatch returns is not the bare could-not-connect message the claim names:
the catch block has prepended "Internal server error: " to it. -/
theorem C6_counterexample :
    dispatch reqLocalHi envLocalRefused envCloudUnused
      ≠ .serverError "Could not connect to the local Ollama server. Please ensure it is running on http://localhost:11434." ∧
    dispatch reqLocalHi envLocalRefused envCloudUnused
      = .serverError "Internal server error: Could not connect to the local Ollama server. Please ensure it is running on http://localhost:11434." := by
  refine ⟨by decide, rfl⟩

/-- C6 (amended): when the connection to the local service is refused,
dispatch returns an HTTP 500 failure whose message is "Internal server
error: Could not connect to the local Ollama server. Please ensure it is
running on http://localhost:11434." — which contains the local endpoint
address, exhibited here by the explicit decomposition around
"http://localhost:11434". -/
theorem C6_conn_refused (req : ChatRequest)
    (lenv : OllamaPayload → FetchOutcome OllamaBody)
    (cenv : String → GeminiPayload → FetchOutcome GeminiBody)
    (m : String)
    (hp : falsyStr req.prompt = false) (hl : req.useLocal = true)
    (he : lenv (ollamaPayload req.prompt) = .connRefused m) :
    dispatch req lenv cenv = .serverError
      ("Internal server error: Could not connect to the local Ollama server. Please ensure it is running on "
        ++ "http://localhost:11434" ++ ".") := by
  simp [dispatch, hp, hl, he, generateLocal]

/-- C6 witness: the amended theorem applied to the connection-refused local
scenario with prompt "hey". -/
theorem C6_witness :
    dispatch { prompt := some "hey", useLocal := true, apiKey := none } envLocalRefused envCloudUnused
      = .serverError
        ("Internal server error: Could not connect to the local Ollama server. Please ensure it is running on "
          ++ "http://localhost:11434" ++ ".") :=
  C6_conn_refused _ envLocalRefused envCloudUnused "connect ECONNREFUSED 127.0.0.1:11434"
    (by decide) rfl rfl

/-- C7 counterexample: with a non-empty prompt and no credential on the
cloud path, the ClientError message is "API Key is required for Cloud
model." with a trailing period, not the claim's "API Key is required for
Cloud model". -/
theorem C7_counterexample :
    dispatch reqCloudNoKey envLocalUnused envCloudUnused
      = .clientError "API Key is required for Cloud model." ∧
    dispatch reqCloudNoKey envLocalUnused envCloudUnused
      ≠ .clientError "API Key is required for Cloud model" := by
  refine ⟨rfl, by decide⟩

/-- C7 (amended): for every request with useLocal = false and credential
absent or empty, dispatch returns a ClientError (HTTP 400) whatever the
prompt is; when the prompt is non-falsy the message is "API Key is required
for Cloud model." (with a trailing period), and when the prompt is falsy it
is the prompt-validation message instead. -/
theorem C7_missing_key (req : ChatRequest)
    (lenv : OllamaPayload → FetchOutcome OllamaBody)
    (cenv : String → GeminiPayload → FetchOutcome GeminiBody)
    (hl : req.useLocal = false) (hk : falsyStr req.apiKey = true) :
    (dispatch req lenv cenv).isClientError = true ∧
    (falsyStr req.prompt = false →
      dispatch req lenv cenv = .clientError "API Key is required for Cloud model.") := by
  cases hp : falsyStr req.prompt
  · constructor
    · simp [dispatch, hp, hl, hk, DispatchResult.isClientError]
    · intro _
      simp [dispatch, hp, hl, hk]
  · constructor
    · simp [dispatch, hp, DispatchResult.isClientError]
    · intro hc
      exact absurd hc (by decide)

/-- C7 witness: the amended theorem applied to a cloud request with prompt
"hi" and no credential. -/
theorem C7_witness :
    (dispatch reqCloudNoKey envLocalUnused envCloudUnused).isClientError = true ∧
    dispatch reqCloudNoKey envLocalUnused envCloudUnused
      = .clientError "API Key is required for Cloud model." := by
  have h := C7_missing_key reqCloudNoKey envLocalUnused envCloudUnused rfl (by decide)
  exact ⟨h.1, h.2 (by decide)⟩

/-- C8: on the local path no credential is consulted and none is sent: the
outbound body is exactly the record with the fixed model identifier, the
request's prompt and stream = false, and the whole dispatch outcome is
identical for any two requests differing only in the credential. -/
theorem C8_local_ignores_credential (req : ChatRequest)
    (lenv : OllamaPayload → FetchOutcome OllamaBody)
    (cenv : String → GeminiPayload → FetchOutcome GeminiBody)
    (k k' : Option String)
    (hl : req.useLocal = true) :
    ollamaPayload req.prompt
      = { model := "gemma3:12b-it-qat", prompt := req.prompt, stream := false } ∧
    dispatch { req with apiKey := k } lenv cenv
      = dispatch { req with apiKey := k' } lenv cenv := by
  refine ⟨rfl, ?_⟩
  simp [dispatch, hl]

/-- C8 witness: the theorem applied with credentials some "secret" and
none; the local outcome is the same success either way. -/
theorem C8_witness :
    ollamaPayload reqLocalHi.prompt
      = { model := "gemma3:12b-it-qat", prompt := reqLocalHi.prompt, stream := false } ∧
    dispatch { reqLocalHi with apiKey := some "secret" } envLocalOkX envCloudUnused
      = dispatch { reqLocalHi with apiKey := none } envLocalOkX envCloudUnused :=
  C8_local_ignores_credential reqLocalHi envLocalOkX envCloudUnused (some "secret") none rfl

/-- C9: the local branch does not validate the success body: when the local
service answers HTTP 200 with a JSON body lacking the `response` field,
dispatch returns HTTP 200 with an absent response text, not a failure —
unlike the cloud branch, where a success body lacking the nested text field
yields a failure. -/
theorem C9_local_missing_field_ok (req : ChatRequest)
    (lenv : OllamaPayload → FetchOutcome OllamaBody)
    (cenv : String → GeminiPayload → FetchOutcome GeminiBody)
    (st : String)
    (hp : falsyStr req.prompt = false) (hl : req.useLocal = true)
    (he : lenv (ollamaPayload req.prompt) = .response true st none) :
    dispatch req lenv cenv = .ok none ∧
    generateCloud (.response true st { error := none, candidates := some [] })
      = .error "No content found in Gemini API response." := by
  constructor
  · simp [dispatch, hp, hl, he, generateLocal]
  · rfl

/-- C9 witness: the theorem applied to a local service answering HTTP 200
with an empty JSON object. -/
theorem C9_witness :
    dispatch reqLocalHi envLocalNoField envCloudUnused = .ok none ∧
    generateCloud (.response true "OK" { error := none, candidates := some [] })
      = .error "No content found in Gemini API response." :=
  C9_local_missing_field_ok reqLocalHi envLocalNoField envCloudUnused "OK" (by decide) rfl rfl

/-- C10: prompt validation precedes credential validation: when the prompt
is falsy and the request selects the cloud backend with a falsy credential,
dispatch returns the prompt-validation ClientError "Prompt is required.",
never the missing-API-key message. -/
theorem C10_prompt_check_first (req : ChatRequest)
    (lenv : OllamaPayload → FetchOutcome OllamaBody)
    (cenv : String → GeminiPayload → FetchOutcome GeminiBody)
    (hp : falsyStr req.prompt = true) (_hl : req.useLocal = false)
    (_hk : falsyStr req.apiKey = true) :
    dispatch req lenv cenv = .clientError "Prompt is required." ∧
    dispatch req lenv cenv ≠ .clientError "API Key is required for Cloud model." := by
  have h : dispatch req lenv cenv = .clientError "Prompt is required." := by
    simp [dispatch, hp]
  refine ⟨h, ?_⟩
  rw [h]
  intro hcon
  have := DispatchResult.clientError.injEq "Prompt is required." "API Key is required for Cloud model." ▸ hcon
  simp at this

/-- C10 witness: the theorem applied to a request with an empty prompt, the
cloud backend selected and no credential. -/
theorem C10_witness :
    dispatch { prompt := some "", useLocal := false, apiKey := none } envLocalUnused envCloudUnused
      = .clientError "Prompt is required." :=
  (C10_prompt_check_first _ envLocalUnused envCloudUnused (by decide) rfl (by decide)).1
